import Mathlib

/-!
Shallow embedding of `src/services/api_service.py` (Alpha Vantage intraday
fetcher and normalizer).

The provider's JSON body is modelled as an association list from key strings to
time-series sections; a section maps timestamp strings to the positional list
of OHLCV field strings (the `"1. open"`-style labels are treated positionally
by the source, so only the values are kept).  The HTTP transport is modelled as
a datatype of the outcomes the source distinguishes: a response carrying a
status code and a body (`none` when the body is not parseable JSON), a
connection error, a timeout expiry, or any other exception raised by the
request call.  `requests.Response.raise_for_status` raises `HTTPError` exactly
for status codes in `[400, 600)`, which is embedded in `raiseForStatusErr`.
Floating-point parsing (`pd.to_numeric`) is embedded over `ℚ` for Alpha
Vantage's canonical decimal strings; `pd.to_datetime` is embedded for the
canonical `YYYY-MM-DD HH:MM:SS` timestamp format, including its calendar
validation (proleptic Gregorian leap years and days-in-month) and the
`datetime64[ns]` representable bounds.  A failure propagating out of
`parse_time_series` — including the `ValueError` the column assignment
raises on a present time-series section with zero entries — is embedded as
`none`.
-/

namespace ApiService

/-- The positional field values of one provider record (open, high, low,
close, volume as strings). -/
abbrev Row5 := List String

/-- A time-series section: timestamp string ↦ record field strings. -/
abbrev TimeSeries := List (String × Row5)

/-- A parsed provider body: key ↦ section.  Keys not starting with
`"Time Series"` are never read by the source, so their values are irrelevant. -/
abbrev RawPayload := List (String × TimeSeries)

/-- The binary fetch outcome: `payload data` embeds the Python return
`(data, False)`, `fallback` embeds `(None, True)`. -/
inductive FetchOutcome where
  | payload (data : RawPayload)
  | fallback
deriving DecidableEq, Repr

/-- What the HTTP transport did for one call of `requests.get`. -/
inductive TransportResult where
  | response (status : Nat) (body : Option RawPayload)
  | connectionError
  | timedOut
  | otherException
deriving DecidableEq, Repr

/-- Python `"k" in data` on the parsed JSON dict. -/
def hasKey (p : RawPayload) (k : String) : Bool :=
  p.any (fun e => e.1 == k)

/-- `requests.Response.raise_for_status` raises `HTTPError` iff the status
code is in `[400, 600)`. -/
def raiseForStatusErr (status : Nat) : Bool :=
  decide (400 ≤ status) && decide (status < 600)

set_option linter.unusedVariables false in
/-- Embedding of `fetch_intraday_data`: classifies the transport result into a
`FetchOutcome` together with the diagnostic line the source prints (empty when
nothing is printed).  The symbol, interval and credential are passed through
verbatim into the request the transport performs.  Every exception path of the
source is a caught branch here, so the function is total. -/
def fetch_intraday_data (symbol interval apiKey : String)
    (t : TransportResult) : FetchOutcome × String :=
  match t with
  | .response status body =>
    if raiseForStatusErr status then
      if status == 401 then
        (.fallback, "Invalid API key. Using demo data for " ++ symbol ++ ".")
      else if status == 429 then
        (.fallback, "API rate limit exceeded. Using demo data for " ++ symbol ++ ".")
      else
        (.fallback, "HTTP error occurred. Using demo data for " ++ symbol ++ ".")
    else
      match body with
      | none =>
        (.fallback, "Error occurred: body is not valid JSON. Using demo data for " ++ symbol ++ ".")
      | some data =>
        if hasKey data "Error Message" then
          (.fallback, "Error occurred: Invalid symbol: " ++ symbol ++ ". Using demo data for " ++ symbol ++ ".")
        else if hasKey data "Note" then
          (.fallback, "Error occurred: API rate limit reached. Using demo data instead. Using demo data for " ++ symbol ++ ".")
        else
          (.payload data, "")
  | .connectionError =>
    (.fallback, "Network connection error. Using demo data for " ++ symbol ++ ".")
  | .timedOut =>
    (.fallback, "Request timed out. Using demo data for " ++ symbol ++ ".")
  | .otherException =>
    (.fallback, "Error occurred. Using demo data for " ++ symbol ++ ".")

/-- A parsed calendar date-time (the index entries after `pd.to_datetime`). -/
structure Timestamp where
  year : Nat
  month : Nat
  day : Nat
  hour : Nat
  minute : Nat
  second : Nat
deriving DecidableEq, Repr

/-- Linearises a timestamp for comparison; injective on timestamps whose
fields are in calendar range. -/
def Timestamp.key (t : Timestamp) : Nat :=
  ((((t.year * 13 + t.month) * 32 + t.day) * 24 + t.hour) * 60 + t.minute) * 60 + t.second

/-- Value of one decimal digit character (code points 48–57). -/
def digit? (c : Char) : Option Nat :=
  if 48 ≤ c.toNat ∧ c.toNat ≤ 57 then some (c.toNat - 48) else none

/-- Leap year in the proleptic Gregorian calendar `pd.to_datetime` uses. -/
def isLeapYear (y : Nat) : Bool :=
  (y % 4 == 0 && y % 100 != 0) || y % 400 == 0

/-- Number of days of a month of a year, Gregorian. -/
def daysInMonth (y m : Nat) : Nat :=
  if m = 2 then if isLeapYear y then 29 else 28
  else if m = 4 ∨ m = 6 ∨ m = 9 ∨ m = 11 then 30
  else 31

/-- The smallest whole-second timestamp representable as `datetime64[ns]`
(`pd.Timestamp.min` is 1677-09-21 00:12:43.145224193); below it
`pd.to_datetime` raises an out-of-bounds error. -/
def pandasMinTs : Timestamp := ⟨1677, 9, 21, 0, 12, 44⟩

/-- The largest whole-second timestamp representable as `datetime64[ns]`
(`pd.Timestamp.max` is 2262-04-11 23:47:16.854775807); above it
`pd.to_datetime` raises an out-of-bounds error. -/
def pandasMaxTs : Timestamp := ⟨2262, 4, 11, 23, 47, 16⟩

/-- The validation `pd.to_datetime` performs on the parsed fields, then the
packed timestamp: fields in range, a calendar-valid day for the month, and
the value within the `datetime64[ns]` representable bounds. -/
def mkTimestamp (a1 a2 a3 a4 b1 b2 e1 e2 f1 f2 g1 g2 i1 i2 : Nat) : Option Timestamp :=
  let ye := a1 * 1000 + a2 * 100 + a3 * 10 + a4
  let mo := b1 * 10 + b2
  let da := e1 * 10 + e2
  let ho := f1 * 10 + f2
  let mi := g1 * 10 + g2
  let se := i1 * 10 + i2
  let t : Timestamp := ⟨ye, mo, da, ho, mi, se⟩
  if 1 ≤ mo ∧ mo ≤ 12 ∧ 1 ≤ da ∧ da ≤ daysInMonth ye mo ∧
      ho ≤ 23 ∧ mi ≤ 59 ∧ se ≤ 59 ∧
      pandasMinTs.key ≤ t.key ∧ t.key ≤ pandasMaxTs.key then
    some t
  else
    none

/-- Embedding of `pd.to_datetime` on one canonical Alpha Vantage timestamp
string `YYYY-MM-DD HH:MM:SS`, at the character-list level. -/
def parseTimestampChars (cs : List Char) : Option Timestamp :=
  match cs with
  | [y1, y2, y3, y4, '-', m1, m2, '-', d1, d2, ' ', h1, h2, ':', n1, n2, ':', s1, s2] =>
    match digit? y1, digit? y2, digit? y3, digit? y4, digit? m1, digit? m2,
          digit? d1, digit? d2, digit? h1, digit? h2, digit? n1, digit? n2,
          digit? s1, digit? s2 with
    | some a1, some a2, some a3, some a4, some b1, some b2, some e1, some e2,
      some f1, some f2, some g1, some g2, some i1, some i2 =>
      mkTimestamp a1 a2 a3 a4 b1 b2 e1 e2 f1 f2 g1 g2 i1 i2
    | _, _, _, _, _, _, _, _, _, _, _, _, _, _ => none
  | _ => none

/-- Digit-string value, left to right. -/
def digitsValAux : List Char → Nat → Option Nat
  | [], acc => some acc
  | c :: cs, acc =>
    match digit? c with
    | some d => digitsValAux cs (acc * 10 + d)
    | none => none

/-- Value of a non-empty all-digit string. -/
def digitsVal (cs : List Char) : Option Nat :=
  match cs with
  | [] => none
  | _ => digitsValAux cs 0

/-- Splits at the first `'.'`, if any. -/
def splitAtDot : List Char → List Char × Option (List Char)
  | [] => ([], none)
  | c :: cs =>
    if c = '.' then ([], some cs)
    else
      let (l, r) := splitAtDot cs
      (c :: l, r)

/-- Unsigned decimal numeral, integer part and optional fractional part. -/
def parseUnsigned (cs : List Char) : Option ℚ :=
  match splitAtDot cs with
  | (ip, none) => (digitsVal ip).map (fun n => (n : ℚ))
  | (ip, some fp) => do
    let i ← digitsVal ip
    let f ← digitsVal fp
    pure ((i : ℚ) + (f : ℚ) / (10 : ℚ) ^ fp.length)

/-- Embedding of `pd.to_numeric` on one canonical decimal string. -/
def parseNumeric (s : String) : Option ℚ :=
  match s.data with
  | '-' :: rest => (parseUnsigned rest).map (fun q => -q)
  | cs => parseUnsigned cs

/-- One row of the resulting table: timestamp index plus the five numeric
columns, in the fixed order open, high, low, close, volume. -/
structure TimeSeriesRow where
  timestamp : Timestamp
  open_ : ℚ
  high : ℚ
  low : ℚ
  close : ℚ
  volume : ℚ
deriving DecidableEq, Repr

/-- The resulting table (`pd.DataFrame` rows in index order). -/
abbrev DataFrame := List TimeSeriesRow

/-- The external demo-data collaborator `demo_data.generate_demo_stock_data`. -/
abbrev DemoGen := String → String → DataFrame

/-- Parses one section entry: the Python column assignment requires exactly
five fields, then the timestamp and every field must parse. -/
def parseRow (entry : String × Row5) : Option TimeSeriesRow :=
  match entry.2 with
  | [o, h, l, c, v] =>
    match parseTimestampChars entry.1.data, parseNumeric o, parseNumeric h,
          parseNumeric l, parseNumeric c, parseNumeric v with
    | some ts, some ov, some hv, some lv, some cv, some vv =>
      some ⟨ts, ov, hv, lv, cv, vv⟩
    | _, _, _, _, _, _ => none
  | _ => none

/-- Comparison used by `df.sort_index()`: ascending by timestamp. -/
def rowLE (a b : TimeSeriesRow) : Bool :=
  decide (a.timestamp.key ≤ b.timestamp.key)

/-- Python `key.startswith("Time Series")`, at the character level. -/
def charsPrefixOf : List Char → List Char → Bool
  | [], _ => true
  | _ :: _, [] => false
  | c :: cs, d :: ds => c == d && charsPrefixOf cs ds

/-- Whether a payload key names the time-series section. -/
def startsWithTS (k : String) : Bool :=
  charsPrefixOf "Time Series".data k.data

/-- The source's key scan: the first key starting with `"Time Series"`,
together with its section. -/
def findTimeSeriesEntry (p : RawPayload) : Option (String × TimeSeries) :=
  p.find? (fun e => startsWithTS e.1)

/-- Python truthiness of an `Optional[str]` argument. -/
def truthyStr : Option String → Bool
  | none => false
  | some s => !(s == "")

/-- The source's demo branch: `generate_demo_stock_data(symbol, interval)`
when both arguments are truthy, else an empty `DataFrame`. -/
def fallbackTable (demo : DemoGen) : Option String → Option String → DataFrame
  | some s, some i => if s = "" ∨ i = "" then [] else demo s i
  | _, _ => []

/-- Embedding of `parse_time_series`.  `none` as a result embeds an exception
propagating out of the Python function (it has no handler of its own); the
source raises when a time-series key is present but its section has zero
entries — `df.columns = [5 names]` on the resulting `(0, 0)` frame raises
`ValueError` (length mismatch) — and when a row's fields or timestamp fail
to parse. -/
def parse_time_series (response : Option RawPayload) (symbol interval : Option String)
    (demo : DemoGen) : Option DataFrame :=
  match response with
  | none => some (fallbackTable demo symbol interval)
  | some p =>
    if p.isEmpty then
      some (fallbackTable demo symbol interval)
    else
      match findTimeSeriesEntry p with
      | none => some (fallbackTable demo symbol interval)
      | some entry =>
        if entry.2.isEmpty then
          none
        else
          match entry.2.mapM parseRow with
          | none => none
          | some rows => some (rows.mergeSort rowLE)

/-- The composition the spec calls `normalize`: `parse_time_series` applied to
the data component of the fetch outcome (`None` for `Fallback`). -/
def normalize (outcome : FetchOutcome) (symbol interval : Option String)
    (demo : DemoGen) : Option DataFrame :=
  match outcome with
  | .payload d => parse_time_series (some d) symbol interval demo
  | .fallback => parse_time_series none symbol interval demo

/-- The calendar ranges `parseTimestampChars` checks before accepting a
timestamp; on this domain `Timestamp.key` is injective. -/
def TsInRange (t : Timestamp) : Prop :=
  1 ≤ t.month ∧ t.month ≤ 12 ∧ 1 ≤ t.day ∧ t.day ≤ 31 ∧
    t.hour ≤ 23 ∧ t.minute ≤ 59 ∧ t.second ≤ 59

/-! ## Theorems -/

/-- C1: for every symbol, interval, credential and transport behaviour, the
fetcher returns an outcome that is either `payload data` or `fallback`.  Every
exception the source can meet (status errors, connection faults, timeouts,
body-parse failures, the marker-check `ValueError`s) is one of the embedded
transport branches, each of which is handled, so the embedded function is
total and no failure escapes the call. -/
theorem fetch_total (symbol interval apiKey : String) (t : TransportResult) :
    (∃ d, (fetch_intraday_data symbol interval apiKey t).1 = .payload d) ∨
      (fetch_intraday_data symbol interval apiKey t).1 = .fallback := by
  rcases h : (fetch_intraday_data symbol interval apiKey t).1 with d | _
  · exact Or.inl ⟨d, rfl⟩
  · exact Or.inr rfl

/-- C9: the normalizer is deterministic on payload inputs: two calls on the
same payload value with the same symbol and interval arguments yield the same
table. -/
theorem normalize_deterministic (d₁ d₂ : RawPayload) (s₁ s₂ i₁ i₂ : Option String)
    (demo : DemoGen) (hd : d₁ = d₂) (hs : s₁ = s₂) (hi : i₁ = i₂) :
    normalize (.payload d₁) s₁ i₁ demo = normalize (.payload d₂) s₂ i₂ demo := by
  rw [hd, hs, hi]

/-- Witness for C9 at a concrete payload. -/
theorem normalize_deterministic_witness :
    normalize (.payload [("Meta Data", [])]) (some "IBM") (some "5min") (fun _ _ => []) =
      normalize (.payload [("Meta Data", [])]) (some "IBM") (some "5min") (fun _ _ => []) :=
  normalize_deterministic [("Meta Data", [])] [("Meta Data", [])]
    (some "IBM") (some "IBM") (some "5min") (some "5min") (fun _ _ => []) rfl rfl rfl

/-- C6 counterexample: HTTP status 304 is not a 2xx status and is neither 401
nor 429, yet `raise_for_status` does not raise for it, so with a parseable
marker-free body the outcome is a payload — not the fallback the claim
requires for every non-2xx status. -/
theorem fetch_status304_payload :
    (fetch_intraday_data "IBM" "5min" "key"
        (.response 304 (some [("Time Series (5min)", [])]))).1 =
      .payload [("Time Series (5min)", [])] := by
  rfl

/-- C6 amended: for HTTP status 401, 429, or any other status in `[400, 600)`
(the statuses `requests.Response.raise_for_status` raises for), and for
connection failures and timeout expiries, the outcome is the fallback signal;
the 401/429/other classification never changes the outcome. -/
theorem fetch_fallback_on_faults (symbol interval apiKey : String)
    (status : Nat) (body : Option RawPayload)
    (h : 400 ≤ status ∧ status < 600) :
    (fetch_intraday_data symbol interval apiKey (.response status body)).1 = .fallback ∧
      (fetch_intraday_data symbol interval apiKey .connectionError).1 = .fallback ∧
      (fetch_intraday_data symbol interval apiKey .timedOut).1 = .fallback := by
  refine ⟨?_, rfl, rfl⟩
  have hb : raiseForStatusErr status = true := by
    simp only [raiseForStatusErr, Bool.and_eq_true, decide_eq_true_eq]
    omega
  simp only [fetch_intraday_data, hb, if_true]
  split
  · rfl
  · split <;> rfl

/-- Witness for the amended C6 at status 404. -/
theorem fetch_fallback_on_faults_witness :
    (fetch_intraday_data "IBM" "5min" "key" (.response 404 none)).1 = .fallback ∧
      (fetch_intraday_data "IBM" "5min" "key" .connectionError).1 = .fallback ∧
      (fetch_intraday_data "IBM" "5min" "key" .timedOut).1 = .fallback :=
  fetch_fallback_on_faults "IBM" "5min" "key" 404 none (by decide)

/-- C10: a 2xx transport status whose body parses to an empty structure
yields `payload []`, not the fallback signal; yet the normalizer treats that
empty payload exactly like the fallback signal for every symbol, interval and
demo generator, because its first branch tests only emptiness of the
payload. -/
theorem empty_payload_normalizes_like_fallback (symbol interval apiKey : String)
    (status : Nat) (h : 200 ≤ status ∧ status < 300) :
    (fetch_intraday_data symbol interval apiKey (.response status (some []))).1 =
        .payload [] ∧
      ∀ (sym int : Option String) (demo : DemoGen),
        normalize (.payload []) sym int demo = normalize .fallback sym int demo := by
  constructor
  · have hb : raiseForStatusErr status = false := by
      simp only [raiseForStatusErr, Bool.and_eq_false_iff, decide_eq_false_iff_not]
      omega
    simp [fetch_intraday_data, hb, hasKey]
  · intro sym int demo
    rfl

lemma isEmpty_false_of_find?_some {p : RawPayload} {e : String × TimeSeries}
    (h : findTimeSeriesEntry p = some e) : p.isEmpty = false := by
  cases p
  · simp [findTimeSeriesEntry] at h
  · rfl

/-- C3 (code bug): the claim and the spec say a present time-series key with
zero entries yields an empty table, but the source does not do that —
`pd.DataFrame.from_dict({}, orient='index')` gives a `(0, 0)` frame and the
following `df.columns = ['open', 'high', 'low', 'close', 'volume']` raises
`ValueError` (length mismatch, 0 elements vs 5 names).  Embedded here: the
call fails (`none`) for every symbol, interval and demo generator. -/
theorem empty_section_raises (symbol interval : Option String) (demo : DemoGen) :
    parse_time_series (some [("Time Series (5min)", [])]) symbol interval demo =
      none := by
  rfl

/-- C4: on the fallback outcome, the normalizer returns the demo generator's
table unchanged when both a symbol and an interval are supplied (the data
model makes both non-empty identifiers), and an empty table when either is
absent. -/
theorem fallback_normalization (demo : DemoGen) (s i : String)
    (hs : s ≠ "") (hi : i ≠ "") :
    normalize .fallback (some s) (some i) demo = some (demo s i) ∧
      (∀ sym : Option String, normalize .fallback sym none demo = some []) ∧
      (∀ int : Option String, normalize .fallback none int demo = some []) := by
  refine ⟨?_, ?_, ?_⟩
  · simp [normalize, parse_time_series, fallbackTable, hs, hi]
  · intro sym
    cases sym <;> rfl
  · intro int
    cases int <;> rfl

/-- Witness for C4 with a concrete demo generator. -/
theorem fallback_normalization_witness :
    normalize .fallback (some "AAPL") (some "5min") (fun _ _ => []) =
        some ((fun _ _ => ([] : DataFrame)) "AAPL" "5min") ∧
      (∀ sym : Option String, normalize .fallback sym none (fun _ _ => []) = some []) ∧
      (∀ int : Option String, normalize .fallback none int (fun _ _ => []) = some []) :=
  fallback_normalization (fun _ _ => []) "AAPL" "5min" (by decide) (by decide)

/-- C8: a non-empty payload with no key starting with `"Time Series"` is
normalized exactly like the fallback outcome: demo data when both symbol and
interval are supplied, an empty table otherwise. -/
theorem no_ts_key_behaves_like_fallback (p : RawPayload) (symbol interval : Option String)
    (demo : DemoGen) (hne : p ≠ []) (hno : findTimeSeriesEntry p = none) :
    parse_time_series (some p) symbol interval demo =
      normalize .fallback symbol interval demo := by
  have h1 : p.isEmpty = false := by
    cases p
    · exact absurd rfl hne
    · rfl
  simp only [parse_time_series, normalize, h1, Bool.false_eq_true, if_false, hno]

/-- Witness for C8 on a payload holding only a metadata key. -/
theorem no_ts_key_behaves_like_fallback_witness :
    parse_time_series (some [("Meta Data", [])]) (some "AAPL") (some "5min")
        (fun _ _ => []) =
      normalize .fallback (some "AAPL") (some "5min") (fun _ _ => []) :=
  no_ts_key_behaves_like_fallback [("Meta Data", [])] (some "AAPL") (some "5min")
    (fun _ _ => []) (by decide) (by decide)

lemma mapM_eq_none_of_mem {α β : Type} (f : α → Option β) :
    ∀ (l : List α) (a : α), a ∈ l → f a = none → l.mapM f = none := by
  intro l
  induction l with
  | nil =>
    intro a ha
    cases ha
  | cons b bl ih =>
    intro a ha hfa
    rw [List.mapM_cons]
    rcases List.mem_cons.mp ha with rfl | hmem
    · simp [hfa]
    · cases hb : f b
      · simp
      · simp only [hb, ih a hmem hfa]
        rfl

/-- C5: when the time-series section is present and one of its rows fails to
parse (a non-numeric field, a malformed timestamp, or a wrong field count),
the normalizer propagates the failure to its caller: it neither skips the
row nor substitutes demo data. -/
theorem malformed_row_fails (p : RawPayload) (k : String) (ts : TimeSeries)
    (e : String × Row5) (symbol interval : Option String) (demo : DemoGen)
    (hfind : findTimeSeriesEntry p = some (k, ts))
    (he : e ∈ ts) (hbad : parseRow e = none) :
    parse_time_series (some p) symbol interval demo = none := by
  have hts : ts.isEmpty = false := by
    cases ts
    · cases he
    · rfl
  simp only [parse_time_series, isEmpty_false_of_find?_some hfind, Bool.false_eq_true,
    if_false, hfind, hts, mapM_eq_none_of_mem parseRow ts e he hbad]

/-- Witness for C5: one row whose volume field is not numeric. -/
theorem malformed_row_fails_witness :
    parse_time_series
        (some [("Time Series (5min)",
          [("2024-01-02 09:35:00", ["100.00", "101.00", "99.50", "100.50", "abc"])])])
        (some "AAPL") (some "5min") (fun _ _ => []) = none :=
  malformed_row_fails
    [("Time Series (5min)",
      [("2024-01-02 09:35:00", ["100.00", "101.00", "99.50", "100.50", "abc"])])]
    "Time Series (5min)"
    [("2024-01-02 09:35:00", ["100.00", "101.00", "99.50", "100.50", "abc"])]
    ("2024-01-02 09:35:00", ["100.00", "101.00", "99.50", "100.50", "abc"])
    (some "AAPL") (some "5min") (fun _ _ => []) (by decide) (by decide) (by decide)

/-- C7: any response body containing the `"Error Message"` or `"Note"` marker
key yields the fallback outcome whatever the HTTP status; and a payload is
returned only when the status is one `raise_for_status` accepts, the body
parses, and neither marker key is present. -/
theorem fetch_marker_fallback (symbol interval apiKey : String) :
    (∀ (status : Nat) (p : RawPayload),
        (hasKey p "Error Message" = true ∨ hasKey p "Note" = true) →
        (fetch_intraday_data symbol interval apiKey (.response status (some p))).1 =
          .fallback) ∧
      ∀ (t : TransportResult) (d : RawPayload),
        (fetch_intraday_data symbol interval apiKey t).1 = .payload d →
        ∃ status : Nat, t = .response status (some d) ∧
          raiseForStatusErr status = false ∧
          hasKey d "Error Message" = false ∧ hasKey d "Note" = false := by
  constructor
  · intro status p hmark
    simp only [fetch_intraday_data]
    split
    · split
      · rfl
      · split <;> rfl
    · split
      · rfl
      · split
        · rfl
        · rename_i h1 h2
          rcases hmark with hm | hm
          · exact absurd hm h1
          · exact absurd hm h2
  · intro t d h
    cases t with
    | response status body =>
      refine ⟨status, ?_⟩
      cases body with
      | none =>
        simp only [fetch_intraday_data] at h
        split at h
        · split at h
          · exact absurd h (by simp)
          · split at h <;> exact absurd h (by simp)
        · exact absurd h (by simp)
      | some p =>
        simp only [fetch_intraday_data] at h
        split at h
        · split at h
          · exact absurd h (by simp)
          · split at h <;> exact absurd h (by simp)
        · rename_i hraise
          split at h
          · exact absurd h (by simp)
          · split at h
            · exact absurd h (by simp)
            · rename_i h1 h2
              have hd : p = d := by simpa using h
              subst hd
              simp only [Bool.not_eq_true] at hraise h1 h2
              exact ⟨rfl, hraise, h1, h2⟩
    | connectionError => exact absurd h (by simp [fetch_intraday_data])
    | timedOut => exact absurd h (by simp [fetch_intraday_data])
    | otherException => exact absurd h (by simp [fetch_intraday_data])

/-- Witness for C7: marker bodies at a 5xx and at a 2xx status. -/
theorem fetch_marker_fallback_witness :
    (fetch_intraday_data "IBM" "5min" "key"
        (.response 500 (some [("Note", [])]))).1 = .fallback ∧
      (fetch_intraday_data "IBM" "5min" "key"
        (.response 200 (some [("Error Message", [])]))).1 = .fallback :=
  ⟨(fetch_marker_fallback "IBM" "5min" "key").1 500 [("Note", [])] (Or.inr (by decide)),
    (fetch_marker_fallback "IBM" "5min" "key").1 200 [("Error Message", [])]
      (Or.inl (by decide))⟩

lemma digit?_le {c : Char} {n : Nat} (h : digit? c = some n) : n ≤ 9 := by
  unfold digit? at h
  split at h
  · rename_i hr
    injection h with h
    omega
  · exact absurd h (by simp)

lemma digit?_inj {c c' : Char} {n : Nat} (h : digit? c = some n)
    (h' : digit? c' = some n) : c = c' := by
  unfold digit? at h h'
  split at h
  · split at h'
    · rename_i hr hr'
      injection h with h
      injection h' with h'
      have hnat : c.toNat = c'.toNat := by omega
      exact Char.ext (UInt32.toNat.inj hnat)
    · exact absurd h' (by simp)
  · exact absurd h (by simp)

lemma daysInMonth_le (y m : Nat) : daysInMonth y m ≤ 31 := by
  unfold daysInMonth
  split
  · split <;> omega
  · split <;> omega

lemma mkTimestamp_some {a1 a2 a3 a4 b1 b2 e1 e2 f1 f2 g1 g2 i1 i2 : Nat}
    {t : Timestamp}
    (h : mkTimestamp a1 a2 a3 a4 b1 b2 e1 e2 f1 f2 g1 g2 i1 i2 = some t) :
    t = ⟨a1 * 1000 + a2 * 100 + a3 * 10 + a4, b1 * 10 + b2, e1 * 10 + e2,
        f1 * 10 + f2, g1 * 10 + g2, i1 * 10 + i2⟩ ∧ TsInRange t := by
  simp only [mkTimestamp] at h
  split at h
  · rename_i hr
    obtain ⟨h1, h2, h3, h4, h5, h6, h7, -, -⟩ := hr
    injection h with h
    subst h
    refine ⟨rfl, ?_⟩
    have hd := daysInMonth_le (a1 * 1000 + a2 * 100 + a3 * 10 + a4) (b1 * 10 + b2)
    simp only [TsInRange]
    omega
  · exact absurd h (by simp)

lemma parseTimestampChars_some {cs : List Char} {t : Timestamp}
    (h : parseTimestampChars cs = some t) :
    ∃ (a1 a2 a3 a4 b1 b2 e1 e2 f1 f2 g1 g2 i1 i2 : Nat)
      (y1 y2 y3 y4 m1 m2 d1 d2 hr1 hr2 n1 n2 s1 s2 : Char),
      cs = [y1, y2, y3, y4, '-', m1, m2, '-', d1, d2, ' ',
            hr1, hr2, ':', n1, n2, ':', s1, s2] ∧
      digit? y1 = some a1 ∧ digit? y2 = some a2 ∧ digit? y3 = some a3 ∧
      digit? y4 = some a4 ∧ digit? m1 = some b1 ∧ digit? m2 = some b2 ∧
      digit? d1 = some e1 ∧ digit? d2 = some e2 ∧ digit? hr1 = some f1 ∧
      digit? hr2 = some f2 ∧ digit? n1 = some g1 ∧ digit? n2 = some g2 ∧
      digit? s1 = some i1 ∧ digit? s2 = some i2 ∧
      mkTimestamp a1 a2 a3 a4 b1 b2 e1 e2 f1 f2 g1 g2 i1 i2 = some t := by
  unfold parseTimestampChars at h
  split at h
  · split at h
    · exact ⟨_, _, _, _, _, _, _, _, _, _, _, _, _, _, _, _, _, _, _, _, _, _, _, _, _, _, _, _,
        rfl, by assumption, by assumption, by assumption, by assumption, by assumption,
        by assumption, by assumption, by assumption, by assumption, by assumption,
        by assumption, by assumption, by assumption, by assumption, h⟩
    · exact absurd h (by simp)
  · exact absurd h (by simp)

lemma parseTimestampChars_ranges {cs : List Char} {t : Timestamp}
    (h : parseTimestampChars cs = some t) : TsInRange t := by
  obtain ⟨a1, a2, a3, a4, b1, b2, e1, e2, f1, f2, g1, g2, i1, i2,
    y1, y2, y3, y4, m1, m2, d1, d2, hr1, hr2, n1, n2, s1, s2,
    hcs, hd1, hd2, hd3, hd4, hd5, hd6, hd7, hd8, hd9, hd10, hd11, hd12, hd13, hd14,
    hmk⟩ := parseTimestampChars_some h
  exact (mkTimestamp_some hmk).2

lemma Timestamp.key_inj {t₁ t₂ : Timestamp} (h₁ : TsInRange t₁) (h₂ : TsInRange t₂)
    (h : t₁.key = t₂.key) : t₁ = t₂ := by
  obtain ⟨ya, moa, da, ha, mia, sa⟩ := t₁
  obtain ⟨yb, mob, db, hb, mib, sb⟩ := t₂
  simp only [TsInRange] at h₁ h₂
  simp only [Timestamp.key] at h
  simp only [Timestamp.mk.injEq]
  omega

lemma parseTimestampChars_inj {cs₁ cs₂ : List Char} {t : Timestamp}
    (h₁ : parseTimestampChars cs₁ = some t)
    (h₂ : parseTimestampChars cs₂ = some t) : cs₁ = cs₂ := by
  obtain ⟨a1, a2, a3, a4, b1, b2, e1, e2, f1, f2, g1, g2, i1, i2,
    y1, y2, y3, y4, m1, m2, d1, d2, hr1, hr2, n1, n2, s1, s2,
    hcs, hd1, hd2, hd3, hd4, hd5, hd6, hd7, hd8, hd9, hd10, hd11, hd12, hd13, hd14,
    hmk⟩ := parseTimestampChars_some h₁
  obtain ⟨a1', a2', a3', a4', b1', b2', e1', e2', f1', f2', g1', g2', i1', i2',
    y1', y2', y3', y4', m1', m2', d1', d2', hr1', hr2', n1', n2', s1', s2',
    hcs', hd1', hd2', hd3', hd4', hd5', hd6', hd7', hd8', hd9', hd10', hd11', hd12',
    hd13', hd14', hmk'⟩ := parseTimestampChars_some h₂
  obtain ⟨ht, -⟩ := mkTimestamp_some hmk
  obtain ⟨ht', -⟩ := mkTimestamp_some hmk'
  rw [ht] at ht'
  simp only [Timestamp.mk.injEq] at ht'
  have q1 := digit?_le hd1
  have q2 := digit?_le hd2
  have q3 := digit?_le hd3
  have q4 := digit?_le hd4
  have q5 := digit?_le hd5
  have q6 := digit?_le hd6
  have q7 := digit?_le hd7
  have q8 := digit?_le hd8
  have q9 := digit?_le hd9
  have q10 := digit?_le hd10
  have q11 := digit?_le hd11
  have q12 := digit?_le hd12
  have q13 := digit?_le hd13
  have q14 := digit?_le hd14
  have q1' := digit?_le hd1'
  have q2' := digit?_le hd2'
  have q3' := digit?_le hd3'
  have q4' := digit?_le hd4'
  have q5' := digit?_le hd5'
  have q6' := digit?_le hd6'
  have q7' := digit?_le hd7'
  have q8' := digit?_le hd8'
  have q9' := digit?_le hd9'
  have q10' := digit?_le hd10'
  have q11' := digit?_le hd11'
  have q12' := digit?_le hd12'
  have q13' := digit?_le hd13'
  have q14' := digit?_le hd14'
  have hdig : a1 = a1' ∧ a2 = a2' ∧ a3 = a3' ∧ a4 = a4' ∧ b1 = b1' ∧ b2 = b2' ∧
      e1 = e1' ∧ e2 = e2' ∧ f1 = f1' ∧ f2 = f2' ∧ g1 = g1' ∧ g2 = g2' ∧
      i1 = i1' ∧ i2 = i2' := by
    omega
  obtain ⟨rfl, rfl, rfl, rfl, rfl, rfl, rfl, rfl, rfl, rfl, rfl, rfl, rfl, rfl⟩ := hdig
  have c1 : y1 = y1' := digit?_inj hd1 hd1'
  have c2 : y2 = y2' := digit?_inj hd2 hd2'
  have c3 : y3 = y3' := digit?_inj hd3 hd3'
  have c4 : y4 = y4' := digit?_inj hd4 hd4'
  have c5 : m1 = m1' := digit?_inj hd5 hd5'
  have c6 : m2 = m2' := digit?_inj hd6 hd6'
  have c7 : d1 = d1' := digit?_inj hd7 hd7'
  have c8 : d2 = d2' := digit?_inj hd8 hd8'
  have c9 : hr1 = hr1' := digit?_inj hd9 hd9'
  have c10 : hr2 = hr2' := digit?_inj hd10 hd10'
  have c11 : n1 = n1' := digit?_inj hd11 hd11'
  have c12 : n2 = n2' := digit?_inj hd12 hd12'
  have c13 : s1 = s1' := digit?_inj hd13 hd13'
  have c14 : s2 = s2' := digit?_inj hd14 hd14'
  rw [hcs, hcs', c1, c2, c3, c4, c5, c6, c7, c8, c9, c10, c11, c12, c13, c14]

lemma parseRow_timestamp {e : String × Row5} {r : TimeSeriesRow}
    (h : parseRow e = some r) : parseTimestampChars e.1.data = some r.timestamp := by
  unfold parseRow at h
  split at h
  · split at h
    · rename_i hts hov hhv hlv hcv hvv
      injection h with h
      subst h
      exact hts
    · exact absurd h (by simp)
  · exact absurd h (by simp)

lemma mapM_isSome {α β : Type} (f : α → Option β) :
    ∀ l : List α, (∀ a ∈ l, (f a).isSome = true) →
      ∃ ys, l.mapM f = some ys ∧ List.Forall₂ (fun a y => f a = some y) l ys := by
  intro l
  induction l with
  | nil =>
    intro _
    exact ⟨[], (List.mapM_nil f).trans rfl, List.Forall₂.nil⟩
  | cons b bl ih =>
    intro hall
    obtain ⟨y, hy⟩ := Option.isSome_iff_exists.mp (hall b (List.mem_cons_self b bl))
    obtain ⟨ys, hys, hfa⟩ := ih (fun a ha => hall a (List.mem_cons_of_mem b ha))
    refine ⟨y :: ys, ?_, List.Forall₂.cons hy hfa⟩
    rw [List.mapM_cons]
    simp only [hy, hys]
    rfl

lemma forall₂_mem_right {α β : Type} {R : α → β → Prop} {l₁ : List α} {l₂ : List β}
    (h : List.Forall₂ R l₁ l₂) : ∀ {b}, b ∈ l₂ → ∃ a ∈ l₁, R a b := by
  induction h with
  | nil =>
    intro b hb
    cases hb
  | cons hR hFa ih =>
    intro b hb
    rcases List.mem_cons.mp hb with rfl | hb'
    · exact ⟨_, List.mem_cons_self _ _, hR⟩
    · obtain ⟨a, ha, hr⟩ := ih hb'
      exact ⟨a, List.mem_cons_of_mem _ ha, hr⟩

lemma forall₂_mem_left {α β : Type} {R : α → β → Prop} {l₁ : List α} {l₂ : List β}
    (h : List.Forall₂ R l₁ l₂) : ∀ {a}, a ∈ l₁ → ∃ b ∈ l₂, R a b := by
  induction h with
  | nil =>
    intro a ha
    cases ha
  | cons hR hFa ih =>
    intro a ha
    rcases List.mem_cons.mp ha with rfl | ha'
    · exact ⟨_, List.mem_cons_self _ _, hR⟩
    · obtain ⟨b, hb, hr⟩ := ih ha'
      exact ⟨b, List.mem_cons_of_mem _ hb, hr⟩

lemma parsed_keys_nodup {ts : TimeSeries} {rows : List TimeSeriesRow}
    (h : List.Forall₂ (fun e r => parseRow e = some r) ts rows)
    (hnd : (ts.map Prod.fst).Nodup) :
    (rows.map fun r => r.timestamp.key).Nodup := by
  induction h with
  | nil => simp
  | cons hR hFa ih =>
    rename_i e r ts' rows'
    simp only [List.map_cons, List.nodup_cons] at hnd ⊢
    refine ⟨?_, ih hnd.2⟩
    intro hmem
    simp only [List.mem_map] at hmem
    obtain ⟨r', hr', hkey⟩ := hmem
    obtain ⟨e', he', hpe'⟩ := forall₂_mem_right hFa hr'
    have ht := parseRow_timestamp hR
    have ht' := parseRow_timestamp hpe'
    have hrng := parseTimestampChars_ranges ht
    have hrng' := parseTimestampChars_ranges ht'
    have heqt : r'.timestamp = r.timestamp := Timestamp.key_inj hrng' hrng hkey
    rw [heqt] at ht'
    have hdata : e'.1.data = e.1.data := parseTimestampChars_inj ht' ht
    exact hnd.1 (List.mem_map.mpr ⟨e', he', String.ext hdata⟩)

lemma rowLE_trans : ∀ a b c : TimeSeriesRow,
    rowLE a b = true → rowLE b c = true → rowLE a c = true := by
  intro a b c
  simp only [rowLE, decide_eq_true_eq]
  omega

lemma rowLE_total : ∀ a b : TimeSeriesRow, (rowLE a b || rowLE b a) = true := by
  intro a b
  simp only [rowLE, Bool.or_eq_true, decide_eq_true_eq]
  omega

/-- C2 counterexample: the claim's quantification admits N = 0, where its
hypotheses hold vacuously, but there the source does not return a 0-row
table: the column assignment on the `(0, 0)` frame raises `ValueError`, so
the call yields no table at all. -/
theorem wellformed_payload_zero_rows_cex :
    ¬ ∃ out, parse_time_series (some [("Time Series (5min)", [])])
        (some "AAPL") (some "5min") (fun _ _ => []) = some out := by
  rintro ⟨out, h⟩
  rw [show parse_time_series (some [("Time Series (5min)", [])])
      (some "AAPL") (some "5min") (fun _ _ => []) = none from rfl] at h
  cases h

/-- C2 amended: a well-formed payload — a present time-series section with at
least one entry, whose rows all parse and whose timestamp strings are
pairwise distinct — normalizes to a table with exactly one row per section
entry, sorted strictly ascending by timestamp, each row holding exactly the
parses of its entry's field strings (the table is a permutation of the
parsed rows and contains every parsed row).  At zero entries the call
instead fails (see the counterexample). -/
theorem wellformed_payload_table (p : RawPayload) (k : String) (ts : TimeSeries)
    (symbol interval : Option String) (demo : DemoGen)
    (hfind : findTimeSeriesEntry p = some (k, ts))
    (hne : ts ≠ [])
    (hparse : ∀ e ∈ ts, (parseRow e).isSome = true)
    (hnodup : (ts.map Prod.fst).Nodup) :
    ∃ out, parse_time_series (some p) symbol interval demo = some out ∧
      out.length = ts.length ∧
      List.Pairwise (fun a b => a.timestamp.key < b.timestamp.key) out ∧
      (∀ e ∈ ts, ∀ r, parseRow e = some r → r ∈ out) ∧
      ∃ rows, ts.mapM parseRow = some rows ∧ out.Perm rows := by
  obtain ⟨rows, hrows, hfa⟩ := mapM_isSome parseRow ts hparse
  have hts : ts.isEmpty = false := by
    cases ts
    · exact absurd rfl hne
    · rfl
  refine ⟨rows.mergeSort rowLE, ?_, ?_, ?_, ?_,
    rows, hrows, List.mergeSort_perm rows rowLE⟩
  · simp only [parse_time_series, isEmpty_false_of_find?_some hfind, Bool.false_eq_true,
      if_false, hfind, hts, hrows]
  · calc (rows.mergeSort rowLE).length
        = rows.length := (List.mergeSort_perm rows rowLE).length_eq
      _ = ts.length := hfa.length_eq.symm
  · have hle := List.sorted_mergeSort rowLE_trans rowLE_total rows
    have hnd : (rows.map fun r => r.timestamp.key).Nodup := parsed_keys_nodup hfa hnodup
    have hnd2 : ((rows.mergeSort rowLE).map fun r => r.timestamp.key).Nodup :=
      (((List.mergeSort_perm rows rowLE).map _).nodup_iff).mpr hnd
    have hne := List.pairwise_map.mp hnd2
    exact (hle.and hne).imp fun h =>
      lt_of_le_of_ne (by simpa [rowLE] using h.1) h.2
  · intro e he r hr
    obtain ⟨y, hy, hRy⟩ := forall₂_mem_left hfa he
    rw [hr] at hRy
    injection hRy with hRy
    subst hRy
    exact ((List.mergeSort_perm rows rowLE).mem_iff).mpr hy

/-- Witness for C2 on a two-row payload. -/
theorem wellformed_payload_table_witness :
    ∃ out, parse_time_series
        (some [("Meta Data", []),
          ("Time Series (5min)",
            [("2024-01-02 09:40:00", ["101.50", "102.00", "101.00", "101.75", "1200"]),
             ("2024-01-02 09:35:00", ["100.00", "101.00", "99.50", "100.50", "1000"])])])
        (some "AAPL") (some "5min") (fun _ _ => []) = some out ∧
      out.length =
        ([("2024-01-02 09:40:00", ["101.50", "102.00", "101.00", "101.75", "1200"]),
          ("2024-01-02 09:35:00", ["100.00", "101.00", "99.50", "100.50", "1000"])] :
            TimeSeries).length ∧
      List.Pairwise (fun a b => a.timestamp.key < b.timestamp.key) out ∧
      (∀ e ∈ ([("2024-01-02 09:40:00", ["101.50", "102.00", "101.00", "101.75", "1200"]),
          ("2024-01-02 09:35:00", ["100.00", "101.00", "99.50", "100.50", "1000"])] :
            TimeSeries), ∀ r, parseRow e = some r → r ∈ out) ∧
      ∃ rows, ([("2024-01-02 09:40:00", ["101.50", "102.00", "101.00", "101.75", "1200"]),
          ("2024-01-02 09:35:00", ["100.00", "101.00", "99.50", "100.50", "1000"])] :
            TimeSeries).mapM parseRow = some rows ∧ out.Perm rows :=
  wellformed_payload_table
    [("Meta Data", []),
      ("Time Series (5min)",
        [("2024-01-02 09:40:00", ["101.50", "102.00", "101.00", "101.75", "1200"]),
         ("2024-01-02 09:35:00", ["100.00", "101.00", "99.50", "100.50", "1000"])])]
    "Time Series (5min)"
    [("2024-01-02 09:40:00", ["101.50", "102.00", "101.00", "101.75", "1200"]),
     ("2024-01-02 09:35:00", ["100.00", "101.00", "99.50", "100.50", "1000"])]
    (some "AAPL") (some "5min") (fun _ _ => []) (by decide) (by decide) (by decide)
    (by decide)

/-- Witness for C10 at status 200. -/
theorem empty_payload_normalizes_like_fallback_witness :
    (fetch_intraday_data "IBM" "5min" "key" (.response 200 (some []))).1 =
        .payload [] ∧
      ∀ (sym int : Option String) (demo : DemoGen),
        normalize (.payload []) sym int demo = normalize .fallback sym int demo :=
  empty_payload_normalizes_like_fallback "IBM" "5min" "key" 200 (by decide)

end ApiService
